import Mathlib

/-
Shallow embedding of `scraping_stl.py` (SainteLyon data scraping).

Python values are modelled as follows: XML element attribute dictionaries
become association lists `List (String × String)`; `dict.get k` becomes an
`Option`-returning lookup, `dict[k]` becomes an `Except`-returning lookup
whose failure is a Python `KeyError`; `list[i]` indexing becomes an
`Except`-returning lookup whose failure is an `IndexError`; `np.nan` slots
in the per-checkpoint time/rank lists become `Option.none`.
-/

set_option autoImplicit false

/-- A runtime error raised by the Python code: `IndexError` for out-of-range
list indexing, `KeyError` for a missing dictionary key. -/
inductive PyError where
  | indexError
  | keyError
deriving DecidableEq, Repr

/-- One `<pt>` element of the `pts` checkpoint list of a runner page
(attributes `idpt`, `n`, `km`, `a`, `d`). -/
structure PtNode where
  idpt : String
  n : String
  km : String
  a : String
  d : String
deriving DecidableEq, Repr

/-- One `<e>` element of the `pass` split list of a runner page
(attributes `idpt`, `tps`, and optional `clt`). -/
structure PassE where
  idpt : String
  tps : String
  clt : Option String
deriving DecidableEq, Repr

/-- One aligned checkpoint slot: `some (time, rank)` when a split was
consumed for that checkpoint, `none` when the code appended `np.nan`
to both `cptimes` and `cpranks`. -/
abbrev Slot := Option (String × String)

/-- The fixed exclusion list `useless = ["Animation 500m", "KM BV SPORT"]`. -/
def uselessList : List String := ["Animation 500m", "KM BV SPORT"]

/-- Lookup in the Python dict comprehension
`{cp.attrib["idpt"]: cp.attrib["n"] for cp in checkpoints}`:
a later entry with the same key overwrites an earlier one, so the lookup
returns the name of the last `pt` element carrying the key. -/
def dictLookup (pts : List PtNode) (k : String) : Option String :=
  match pts with
  | [] => none
  | p :: rest =>
    match dictLookup rest k with
    | some v => some v
    | none => if p.idpt = k then some p.n else none

/-- The split-alignment loop of `scraping_stl.py` lines 123-137:
walk the checkpoint-id list `ids` keeping a cursor `i` into `splits`.
`dict` is the id-to-name checkpoint dictionary. Mirrors the Python
evaluation order: `checkpoint_dict[id]` first, then (inside the exclusion
test or the match test) `splits[i]`, then `checkpoint_dict[splits[i].idpt]`
in the exclusion branch only. -/
def alignFrom (dict : String → Option String) (splits : List PassE) :
    List String → Nat → Except PyError (List Slot)
  | [], _ => .ok []
  | id :: rest, i =>
    match dict id with
    | none => .error .keyError
    | some name =>
      if name ∈ uselessList then
        match splits[i]? with
        | none => .error .indexError
        | some s =>
          match dict s.idpt with
          | none => .error .keyError
          | some sname =>
            if sname ∈ uselessList then alignFrom dict splits rest (i + 1)
            else alignFrom dict splits rest i
      else
        match splits[i]? with
        | none => .error .indexError
        | some s =>
          if id = s.idpt then
            match alignFrom dict splits rest (i + 1) with
            | .error e => .error e
            | .ok l => .ok (some (s.tps, s.clt.getD "-") :: l)
          else
            match alignFrom dict splits rest i with
            | .error e => .error e
            | .ok l => .ok (none :: l)

/-- The whole split-alignment step (lines 114-137): build the id-to-name
dictionary and the id list from the `pts` elements, then run the loop from
cursor 0 over the `pass` elements. -/
def alignSplits (pts : List PtNode) (splits : List PassE) :
    Except PyError (List Slot) :=
  alignFrom (dictLookup pts) splits (pts.map (·.idpt)) 0

/-- Python `d.get(k)` on an attribute dictionary: `some` of the first (and,
keys being unique in XML attributes, only) value stored under `k`. -/
def attribGet (a : List (String × String)) (k : String) : Option String :=
  (a.find? (fun p => p.1 == k)).map (·.2)

/-- Python `k in d.keys()` on an attribute dictionary. -/
def containsKey (a : List (String × String)) (k : String) : Bool :=
  (a.find? (fun p => p.1 == k)).isSome

/-- Python `d[k]` on an attribute dictionary: raises `KeyError` when the
key is absent. -/
def attribIndex (a : List (String × String)) (k : String) :
    Except PyError String :=
  match attribGet a k with
  | some v => .ok v
  | none => .error .keyError

/-- The repeated Python idiom `d[k] if k in d.keys() else None`
(used for `prenom`, `cltcat`, `cltsx` and `deniv`). -/
def guardedGet (a : List (String × String)) (k : String) : Option String :=
  if containsKey a k then attribGet a k else none

/-- One entry of the `Past Achievements` list (one `palm/e` element):
keys Year, Race, Position, Time, Distance, and optional Elevation Gain. -/
structure Achievement where
  year : String
  race : String
  pos : String
  tps : String
  dist : String
  deniv : Option String
deriving DecidableEq, Repr

/-- A cell value of the produced result row: a string, an integer (the
year), a float `np.nan`, Python `None`, or the nested past-achievements
list. -/
inductive Cell where
  | str (s : String)
  | int (n : Int)
  | nan
  | pynone
  | achList (l : List Achievement)
deriving DecidableEq, Repr

/-- `Some(value)` becomes a string cell, `None` stays Python `None`. -/
def cellOpt : Option String → Cell
  | some s => Cell.str s
  | none => Cell.pynone

/-- The `Pt{j} time` cell built from an aligned slot: the recorded time
string, or `np.nan` when the slot is missing. -/
def timeCell : Slot → Cell
  | some (t, _) => Cell.str t
  | none => Cell.nan

/-- The `Pt{j} rank` cell built from an aligned slot: the recorded rank
string (already defaulted to `"-"` during alignment), or `np.nan`. -/
def rankCell : Slot → Cell
  | some (_, rk) => Cell.str rk
  | none => Cell.nan

/-- Python `list[i]`: raises `IndexError` out of range. -/
def listIndex {α : Type} (l : List α) (i : Nat) : Except PyError α :=
  match l[i]? with
  | some x => .ok x
  | none => .error .indexError

/-- The seven checkpoint-slot accesses `cptimes[0] .. cptimes[6]` /
`cpranks[0] .. cpranks[6]` of the record literal (lines 171-184): each
access raises `IndexError` when the aligned list is shorter. -/
def takeSlots7 (l : List Slot) : Except PyError (List Slot) :=
  match listIndex l 0, listIndex l 1, listIndex l 2, listIndex l 3,
      listIndex l 4, listIndex l 5, listIndex l 6 with
  | .ok s0, .ok s1, .ok s2, .ok s3, .ok s4, .ok s5, .ok s6 =>
      .ok [s0, s1, s2, s3, s4, s5, s6]
  | _, _, _, _, _, _, _ => .error .indexError

/-- The `Pt{j} time` / `Pt{j} rank` key-cell pairs of the record literal,
in order, starting at slot index `j`. -/
def ptEntries : Nat → List Slot → List (String × Cell)
  | _, [] => []
  | j, s :: rest =>
    ("Pt" ++ toString j ++ " time", timeCell s) ::
    ("Pt" ++ toString j ++ " rank", rankCell s) :: ptEntries (j + 1) rest

/-- One `palm/e` past-race element (lines 142-149): mandatory attributes
`year`, `race`, `pos`, `tps`, `dist` (a `KeyError` if absent), optional
`deniv` resolved to `None` when absent. -/
def achievementOf (race : List (String × String)) :
    Except PyError Achievement :=
  match attribIndex race "year" with
  | .error e => .error e
  | .ok y =>
  match attribIndex race "race" with
  | .error e => .error e
  | .ok r =>
  match attribIndex race "pos" with
  | .error e => .error e
  | .ok p =>
  match attribIndex race "tps" with
  | .error e => .error e
  | .ok t =>
  match attribIndex race "dist" with
  | .error e => .error e
  | .ok d => .ok ⟨y, r, p, t, d, guardedGet race "deniv"⟩

/-- The list comprehension over `palm/e` elements (lines 141-151):
elements are converted in order, the first error aborts. -/
def achievementsOf : List (List (String × String)) →
    Except PyError (List Achievement)
  | [] => .ok []
  | race :: rest =>
    match achievementOf race with
    | .error e => .error e
    | .ok a =>
      match achievementsOf rest with
      | .error e => .error e
      | .ok l => .ok (a :: l)

/-- A parsed runner page: the `identite` and `state` attribute
dictionaries, the `pts/pt` checkpoint elements, the `pass/e` split
elements, the `palm/e` past-race attribute dictionaries, and the optional
`palm` element's own attributes. -/
structure RunnerDoc where
  identite : List (String × String)
  state : List (String × String)
  pts : List PtNode
  passes : List PassE
  palmRaces : List (List (String × String))
  palm : Option (List (String × String))

/-- The per-runner normalization (lines 99-186): mandatory identity and
ranking attributes (a `KeyError` aborts), optional ones resolved to
`None` / `""`, the split alignment, the past achievements, the optional
UTMB index, then the result-row literal, whose checkpoint cells index
the aligned lists at positions 0 through 6. -/
def normalizeRunner (year : Int) (bib : String) (doc : RunnerDoc) :
    Except PyError (List (String × Cell)) :=
  match attribIndex doc.identite "nom" with
  | .error e => .error e
  | .ok name =>
  let first_name := guardedGet doc.identite "prenom"
  match attribIndex doc.identite "sx" with
  | .error e => .error e
  | .ok sex =>
  match attribIndex doc.identite "cat" with
  | .error e => .error e
  | .ok category =>
  let club := (attribGet doc.identite "club").getD ""
  match attribIndex doc.identite "nat" with
  | .error e => .error e
  | .ok nationality =>
  match attribIndex doc.state "clt" with
  | .error e => .error e
  | .ok global_rank =>
  let category_rank := guardedGet doc.state "cltcat"
  let gender_rank := guardedGet doc.state "cltsx"
  match alignSplits doc.pts doc.passes with
  | .error e => .error e
  | .ok slots =>
  match achievementsOf doc.palmRaces with
  | .error e => .error e
  | .ok achievements =>
  let index := match doc.palm with
    | some p => attribGet p "cote"
    | none => none
  match takeSlots7 slots with
  | .error e => .error e
  | .ok s7 =>
    .ok ([("Year", Cell.int year), ("Bib Number", Cell.str bib),
      ("Last Name", Cell.str name), ("First Name", cellOpt first_name),
      ("Sex", Cell.str sex), ("Category", Cell.str category),
      ("Club", Cell.str club), ("Nationality", Cell.str nationality),
      ("Global Rank", Cell.str global_rank),
      ("Category Rank", cellOpt category_rank),
      ("Gender Rank", cellOpt gender_rank),
      ("UTMB Index", cellOpt index)] ++ ptEntries 0 s7 ++
      [("Past Achievements", Cell.achList achievements)])

/-- The kept checkpoint entries of `extract_checkpoints` (lines 63-71):
checkpoints named `Animation 500m` or `KM BV SPORT` are skipped without
consuming a slot index; every other checkpoint contributes its name,
distance, height and total elevation under keys carrying the next index. -/
def checkpointEntries : Nat → List PtNode → List (String × String)
  | _, [] => []
  | i, cp :: rest =>
    if cp.n = "Animation 500m" ∨ cp.n = "KM BV SPORT" then
      checkpointEntries i rest
    else
      ("Pt" ++ toString i ++ " name", cp.n) ::
      ("Pt" ++ toString i ++ " distance", cp.km) ::
      ("Pt" ++ toString i ++ " height", cp.a) ::
      ("Pt" ++ toString i ++ " total elevation", cp.d) ::
      checkpointEntries (i + 1) rest

/-- The dictionary returned by `extract_checkpoints`: the year plus the
kept checkpoint entries. -/
structure CheckpointsInfo where
  year : Int
  entries : List (String × String)
deriving DecidableEq, Repr

/-- `extract_checkpoints` (lines 49-72) on an already-parsed document:
`findall(".//pts/pt")` yields `pts` (the empty list when the path is
absent), and the function returns the year together with the kept
entries — it has no failure outcome. -/
def extract_checkpoints (year : Int) (pts : List PtNode) : CheckpointsInfo :=
  ⟨year, checkpointEntries 0 pts⟩

/-- An HTTP response as seen by the script: a status code and the body
text (one character list). -/
structure HttpResponse where
  status_code : Nat
  text : List Char

/-- The double-quote character of the pattern. -/
def quoteChar : Char := Char.ofNat 34

/-- The literal part of the pattern, the characters of the text
chunk before the captured digit group. -/
def dossLit : List Char := ['d', 'o', 's', 's', '=', quoteChar]

/-- Split off the maximal digit prefix (the greedy match of one or more
digit characters, before the closing-quote check). -/
def takeDigits : List Char → List Char × List Char
  | [] => ([], [])
  | c :: rest =>
    if c.isDigit then
      ((takeDigits rest).1.cons c, (takeDigits rest).2)
    else ([], c :: rest)

/-- Try the bib pattern at the current position: the literal chunk, then a
nonempty maximal digit run, then the closing quote; on success return the
captured digit group and the text after the match. -/
def matchDoss (l : List Char) : Option (List Char × List Char) :=
  if dossLit.isPrefixOf l then
    match takeDigits (l.drop 6) with
    | ([], _) => none
    | (_, []) => none
    | (ds, c :: r2) => if c = quoteChar then some (ds, r2) else none
  else none

/-- The scan of `re.findall` over the page text: at each position try
the pattern; on a match emit the captured group and resume after the
match, otherwise advance one character. The fuel argument, initialized to
the text length, only bounds the recursion. -/
def scanDossAux : Nat → List Char → List String
  | 0, _ => []
  | _ + 1, [] => []
  | fuel + 1, c :: rest =>
    match matchDoss (c :: rest) with
    | some (ds, r) => String.mk ds :: scanDossAux fuel r
    | none => scanDossAux fuel rest

/-- All captured bib groups of the page text, in document order. -/
def scanDoss (l : List Char) : List String := scanDossAux l.length l

/-- `extract_bib_numbers` (lines 32-47): on a 200 response, all matches of
the bib pattern in the page text; otherwise the printed message
`Failed to retrieve the page` and the empty list. The second component
collects the printed console messages. -/
def extract_bib_numbers (resp : HttpResponse) : List String × List String :=
  if resp.status_code = 200 then (scanDoss resp.text, [])
  else ([], ["Failed to retrieve the page"])

/-- The per-year runner loop (lines 93-186): normalize each bib's page in
order; the first raised error aborts the year. `docs` maps a bib number to
its fetched and parsed runner page. -/
def runnersLoop (year : Int) (docs : String → RunnerDoc) :
    List String → Except PyError (List (List (String × Cell)))
  | [] => .ok []
  | bib :: rest =>
    match normalizeRunner year bib (docs bib) with
    | .error e => .error e
    | .ok rec =>
      match runnersLoop year docs rest with
      | .error e => .error e
      | .ok recs => .ok (rec :: recs)

/-- One iteration of the main per-year loop (lines 82-186): extract the
bib numbers from the ranking response, index the first bib
(`bib_numbers[0]`, an `IndexError` on an empty list) to extract the
year's checkpoint info, then run the runner loop over all bibs. -/
def processYear (year : Int) (resp : HttpResponse)
    (docs : String → RunnerDoc) :
    Except PyError (CheckpointsInfo × List (List (String × Cell))) :=
  match (extract_bib_numbers resp).1 with
  | [] => .error .indexError
  | b0 :: rest =>
    let cpinfo := extract_checkpoints year (docs b0).pts
    match runnersLoop year docs (b0 :: rest) with
    | .error e => .error e
    | .ok recs => .ok (cpinfo, recs)

/-- The 2017 legacy-edition row literal (lines 202-217): every value is
read with `.get` from one ranking-row element's attributes; only these
thirteen keys are present — no `Gender Rank`, no `Pt0`-`Pt5` slots, no
`Past Achievements`. -/
def legacyRecord (runner : List (String × String)) : List (String × Cell) :=
  [("Year", Cell.int 2017),
   ("Bib Number", cellOpt (attribGet runner "doss")),
   ("Last Name", cellOpt (attribGet runner "nom")),
   ("First Name", cellOpt (attribGet runner "prenom")),
   ("Sex", cellOpt (attribGet runner "sx")),
   ("Category", cellOpt (attribGet runner "cat")),
   ("Club", cellOpt (attribGet runner "club")),
   ("Nationality", cellOpt (attribGet runner "pays")),
   ("Global Rank", cellOpt (attribGet runner "class")),
   ("Category Rank", cellOpt (attribGet runner "classcat")),
   ("UTMB Index", cellOpt (attribGet runner "index")),
   ("Pt6 time", cellOpt (attribGet runner "tps")),
   ("Pt6 rank", cellOpt (attribGet runner "class"))]

/-- Column lookup in a produced result row: `some` of the cell stored
under the column name, `none` when the row has no such column (pandas
later fills such holes with `NaN`). -/
def recordLookup (rec : List (String × Cell)) (k : String) : Option Cell :=
  (rec.find? (fun p => p.1 == k)).map (·.2)

/-- A document of the shape `sep₀ ++ doss=((d₀)) ++ sep₁ ++ doss=((d₁))
++ ... ++ tail` where each `dᵢ` is a quoted digit group: the reference
shape used to state what `re.findall` returns on a well-formed ranking
page. -/
def buildDossDoc : List (List Char × List Char) → List Char → List Char
  | [], tail => tail
  | (sep, d) :: rest, tail =>
    sep ++ (dossLit ++ (d ++ (quoteChar :: buildDossDoc rest tail)))

/-- Claim C1: for a runner page whose relevant checkpoint ids are
`[a, b, c]` in document order (no excluded names) and whose recorded
splits are `[(a, t1), (c, t3)]`, the alignment produces `t1` in slot 0,
the missing sentinel in slot 1 and `t3` in slot 2 — the time `t3` lands
in `c`'s slot, matched by id, never the positional zip. -/
theorem alignSplits_matches_by_id
    (a b c na nb nc t1 t3 : String) (r1 r3 : Option String)
    (hna : na ∉ uselessList) (hnb : nb ∉ uselessList)
    (hnc : nc ∉ uselessList)
    (hab : a ≠ b) (hac : a ≠ c) (hbc : b ≠ c) :
    alignSplits
      [⟨a, na, "", "", ""⟩, ⟨b, nb, "", "", ""⟩, ⟨c, nc, "", "", ""⟩]
      [⟨a, t1, r1⟩, ⟨c, t3, r3⟩] =
      .ok [some (t1, r1.getD "-"), none, some (t3, r3.getD "-")] := by
  simp [alignSplits, alignFrom, dictLookup, hna, hnb, hnc,
    Ne.symm hab, Ne.symm hac, Ne.symm hbc, hbc]

/-- Witness for C1 at concrete inputs. -/
theorem alignSplits_matches_by_id_witness :
    alignSplits
      [⟨"A", "PA", "", "", ""⟩, ⟨"B", "PB", "", "", ""⟩,
       ⟨"C", "PC", "", "", ""⟩]
      [⟨"A", "01:10:00", some "5"⟩, ⟨"C", "03:30:00", none⟩] =
      .ok [some ("01:10:00", "5"), none, some ("03:30:00", "-")] :=
  alignSplits_matches_by_id "A" "B" "C" "PA" "PB" "PC" "01:10:00" "03:30:00"
    (some "5") none (by decide) (by decide) (by decide) (by decide)
    (by decide) (by decide)

/-- Claim C2 (failing evaluation): for a runner page with relevant
checkpoint ids `[A, B]` and recorded splits `[(A, t1)]` — a strict prefix
subsequence, the runner having no time at the last checkpoint — the
alignment loop evaluates `splits[1]` past the end of the recorded splits
and raises `IndexError` instead of emitting a missing-sentinel pair for
`B`'s slot. -/
theorem alignSplits_prefix_splits_index_error :
    alignSplits
      [⟨"A", "Col A", "10", "500", "700"⟩,
       ⟨"B", "Col B", "20", "600", "1100"⟩]
      [⟨"A", "01:00:00", some "5"⟩] = .error .indexError := rfl

/-- Claim C6: in the alignment walk, when the current checkpoint's name
is excluded: if the split under the cursor is also for an excluded
checkpoint, both are skipped and the cursor advances by one; if it is for
a non-excluded checkpoint, the checkpoint is skipped with the cursor left
in place; in both cases no slot is emitted. -/
theorem alignFrom_excluded_checkpoint_rule
    (dict : String → Option String) (splits : List PassE)
    (ids : List String) (id name sname : String) (i : Nat) (s : PassE)
    (hid : dict id = some name) (hu : name ∈ uselessList)
    (hs : splits[i]? = some s) (hsn : dict s.idpt = some sname) :
    (sname ∈ uselessList →
      alignFrom dict splits (id :: ids) i =
        alignFrom dict splits ids (i + 1)) ∧
    (sname ∉ uselessList →
      alignFrom dict splits (id :: ids) i = alignFrom dict splits ids i) := by
  constructor <;> intro h <;> simp [alignFrom, hid, hu, hs, hsn, h]

/-- Witness for C6 at concrete inputs, one for each branch. -/
theorem alignFrom_excluded_checkpoint_rule_witness :
    (alignFrom (dictLookup [⟨"X", "Animation 500m", "", "", ""⟩])
        [⟨"X", "00:05:00", none⟩] ["X"] 0 =
      alignFrom (dictLookup [⟨"X", "Animation 500m", "", "", ""⟩])
        [⟨"X", "00:05:00", none⟩] [] 1) ∧
    (alignFrom (dictLookup [⟨"X", "KM BV SPORT", "", "", ""⟩,
          ⟨"A", "Col A", "", "", ""⟩])
        [⟨"A", "01:00:00", none⟩] ["X"] 0 =
      alignFrom (dictLookup [⟨"X", "KM BV SPORT", "", "", ""⟩,
          ⟨"A", "Col A", "", "", ""⟩])
        [⟨"A", "01:00:00", none⟩] [] 0) :=
  ⟨(alignFrom_excluded_checkpoint_rule
      (dictLookup [⟨"X", "Animation 500m", "", "", ""⟩])
      [⟨"X", "00:05:00", none⟩] [] "X" "Animation 500m"
      "Animation 500m" 0 ⟨"X", "00:05:00", none⟩ rfl (by decide) rfl
      rfl).1 (by decide),
   (alignFrom_excluded_checkpoint_rule
      (dictLookup [⟨"X", "KM BV SPORT", "", "", ""⟩,
        ⟨"A", "Col A", "", "", ""⟩])
      [⟨"A", "01:00:00", none⟩] [] "X" "KM BV SPORT" "Col A" 0
      ⟨"A", "01:00:00", none⟩ rfl (by decide) rfl rfl).2 (by decide)⟩

/-- Claim C3 (counterexample): a year with only 2 relevant checkpoints —
here a runner page with two checkpoints and both splits recorded — makes
record construction fail with `IndexError` at `cptimes[2]`, instead of
producing a record whose slots 2 through 6 hold the missing sentinel. -/
theorem normalizeRunner_short_year_index_error :
    normalizeRunner 2022 "42"
      ⟨[("nom", "DURAND"), ("sx", "H"), ("cat", "SE H"), ("nat", "FRA")],
       [("clt", "10")],
       [⟨"A", "Col A", "10", "500", "700"⟩,
        ⟨"B", "Col B", "20", "600", "1100"⟩],
       [⟨"A", "01:00:00", some "9"⟩, ⟨"B", "02:00:00", some "8"⟩],
       [], none⟩ = .error .indexError := rfl

/-- Claim C3 (amended): the record's checkpoint cells index the aligned
slot list at the seven fixed positions 0-6, so a produced record has
exactly 7 slot pairs — the first 7 aligned slots — and when the aligned
relevant-checkpoint count is below 7 the construction raises `IndexError`
instead of padding with the missing sentinel. -/
theorem takeSlots7_fixed_width (l : List Slot) :
    (7 ≤ l.length → takeSlots7 l = .ok (l.take 7)) ∧
    (l.length < 7 → takeSlots7 l = .error .indexError) := by
  rcases l with _ | ⟨s0, _ | ⟨s1, _ | ⟨s2, _ | ⟨s3, _ | ⟨s4, _ |
    ⟨s5, _ | ⟨s6, l⟩⟩⟩⟩⟩⟩⟩ <;> simp [takeSlots7, listIndex]

/-- Witness for C3's amended statement at concrete inputs, one for each
branch. -/
theorem takeSlots7_fixed_width_witness :
    takeSlots7 [none, none, none, none, none, none, none, some ("t", "1")] =
      .ok ([none, none, none, none, none, none, none,
        some ("t", "1")].take 7) ∧
    takeSlots7 [some ("01:00:00", "9"), some ("02:00:00", "8")] =
      .error .indexError :=
  ⟨(takeSlots7_fixed_width _).1 (by decide),
   (takeSlots7_fixed_width _).2 (by decide)⟩

/-- Claim C4 (counterexample): a year whose ranking fetch fails (here a
404) yields an empty bib-number sequence, and the per-year processing
then raises `IndexError` at `bib_numbers[0]` instead of continuing. -/
theorem processYear_empty_bibs_index_error :
    processYear 2024 ⟨404, []⟩ (fun _ => ⟨[], [], [], [], [], none⟩) =
      .error .indexError := rfl

/-- Claim C4 (amended): whenever the extracted bib-number sequence of a
year is empty, the per-year processing raises `IndexError` at the
first-bib checkpoint extraction — the empty result aborts the run rather
than being treated as an empty year. -/
theorem processYear_empty_bibs_aborts (year : Int) (resp : HttpResponse)
    (docs : String → RunnerDoc) (h : (extract_bib_numbers resp).1 = []) :
    processYear year resp docs = .error .indexError := by
  simp [processYear, h]

/-- Witness for C4's amended statement at a concrete input. -/
theorem processYear_empty_bibs_aborts_witness :
    processYear 2023 ⟨500, ['x']⟩ (fun _ => ⟨[], [], [], [], [], none⟩) =
      .error .indexError :=
  processYear_empty_bibs_aborts 2023 ⟨500, ['x']⟩
    (fun _ => ⟨[], [], [], [], [], none⟩) rfl

/-- Claim C7 (counterexample): on a document where the `pts/pt` path is
absent (`findall` returns the empty element list), `extract_checkpoints`
returns a checkpoint record containing only the year and no checkpoints —
no failure of any kind is signaled. -/
theorem extract_checkpoints_no_pts_no_error :
    extract_checkpoints 2024 [] = ⟨2024, []⟩ := rfl

/-- Claim C7 (amended): for every year, a document without the `pts/pt`
checkpoint-list path makes `extract_checkpoints` return a record with
only the year and an empty checkpoint sequence; the function has no
failure outcome. -/
theorem extract_checkpoints_no_pts_empty (year : Int) :
    extract_checkpoints year [] = ⟨year, []⟩ := rfl

/-- When a key is not among an attribute dictionary's keys, `get` on it
yields nothing. -/
theorem containsKey_false_attribGet (a : List (String × String))
    (k : String) (h : containsKey a k = false) : attribGet a k = none := by
  unfold containsKey at h
  unfold attribGet
  cases hf : a.find? (fun p => p.1 == k) with
  | none => rfl
  | some v => rw [hf] at h; simp at h

/-- Claim C8: each optional attribute access is total — an absent
`prenom`, `cltcat`, `cltsx` or `deniv` key resolves to `None` via the
guarded access, an absent `club` key resolves to the empty string, and a
past-race element with its mandatory attributes but no `deniv` still
converts successfully; absence never surfaces as an error. -/
theorem optional_fields_resolve_to_absent :
    (∀ (a : List (String × String)) (k : String),
      containsKey a k = false → guardedGet a k = none) ∧
    (∀ a : List (String × String),
      containsKey a "club" = false → (attribGet a "club").getD "" = "") ∧
    (∀ (race : List (String × String)) (y r p t d : String),
      attribGet race "year" = some y → attribGet race "race" = some r →
      attribGet race "pos" = some p → attribGet race "tps" = some t →
      attribGet race "dist" = some d → containsKey race "deniv" = false →
      achievementOf race = .ok ⟨y, r, p, t, d, none⟩) := by
  refine ⟨fun a k h => ?_, fun a h => ?_, fun race y r p t d h1 h2 h3 h4 h5 h6 => ?_⟩
  · simp [guardedGet, h]
  · rw [containsKey_false_attribGet a "club" h]; rfl
  · simp [achievementOf, attribIndex, h1, h2, h3, h4, h5, guardedGet, h6]

/-- Witness for C8 at concrete inputs: an `identite` dictionary without
`prenom` or `club`, and a pre-2016 past-race element without `deniv`. -/
theorem optional_fields_resolve_to_absent_witness :
    guardedGet [("nom", "MARTIN"), ("sx", "F")] "prenom" = none ∧
    (attribGet [("nom", "MARTIN"), ("sx", "F")] "club").getD "" = "" ∧
    achievementOf [("year", "2015"), ("race", "SaintExpress"),
      ("pos", "12"), ("tps", "05:00:00"), ("dist", "44")] =
      .ok ⟨"2015", "SaintExpress", "12", "05:00:00", "44", none⟩ :=
  ⟨optional_fields_resolve_to_absent.1 _ "prenom" (by decide),
   optional_fields_resolve_to_absent.2.1 _ (by decide),
   optional_fields_resolve_to_absent.2.2 _ "2015" "SaintExpress" "12"
     "05:00:00" "44" rfl rfl rfl rfl rfl (by decide)⟩

/-- Claim C9: every 2017 legacy row carries a `Pt6 time` and `Pt6 rank`
column (taken from the row element's `tps` and `class` attributes), no
`Pt0`-`Pt5` time or rank column at all (so those slots end up absent
downstream), and no `Past Achievements` column. -/
theorem legacyRecord_only_last_slot (runner : List (String × String)) :
    recordLookup (legacyRecord runner) "Pt6 time" =
      some (cellOpt (attribGet runner "tps")) ∧
    recordLookup (legacyRecord runner) "Pt6 rank" =
      some (cellOpt (attribGet runner "class")) ∧
    recordLookup (legacyRecord runner) "Pt0 time" = none ∧
    recordLookup (legacyRecord runner) "Pt0 rank" = none ∧
    recordLookup (legacyRecord runner) "Pt1 time" = none ∧
    recordLookup (legacyRecord runner) "Pt1 rank" = none ∧
    recordLookup (legacyRecord runner) "Pt2 time" = none ∧
    recordLookup (legacyRecord runner) "Pt2 rank" = none ∧
    recordLookup (legacyRecord runner) "Pt3 time" = none ∧
    recordLookup (legacyRecord runner) "Pt3 rank" = none ∧
    recordLookup (legacyRecord runner) "Pt4 time" = none ∧
    recordLookup (legacyRecord runner) "Pt4 rank" = none ∧
    recordLookup (legacyRecord runner) "Pt5 time" = none ∧
    recordLookup (legacyRecord runner) "Pt5 rank" = none ∧
    recordLookup (legacyRecord runner) "Past Achievements" = none :=
  ⟨rfl, rfl, rfl, rfl, rfl, rfl, rfl, rfl, rfl, rfl, rfl, rfl, rfl, rfl,
   rfl⟩

/-- Claim C10: in every 2017 legacy row the `Pt6 rank` cell equals the
`Global Rank` cell — both are read from the same `class` attribute — and
the row carries no `Gender Rank` column at all. -/
theorem legacyRecord_rank_reuse (runner : List (String × String)) :
    recordLookup (legacyRecord runner) "Pt6 rank" =
      recordLookup (legacyRecord runner) "Global Rank" ∧
    recordLookup (legacyRecord runner) "Gender Rank" = none := ⟨rfl, rfl⟩

/-- The bib pattern starts with the letter d, so it cannot match at a
position holding any other character. -/
theorem matchDoss_not_d (c : Char) (l : List Char) (h : c ≠ 'd') :
    matchDoss (c :: l) = none := by
  simp [matchDoss, dossLit, List.isPrefixOf, Ne.symm h]

/-- The two parts returned by `takeDigits` reassemble the input. -/
theorem takeDigits_append (l : List Char) :
    (takeDigits l).1 ++ (takeDigits l).2 = l := by
  induction l with
  | nil => rfl
  | cons c rest ih => by_cases hc : c.isDigit <;> simp [takeDigits, hc, ih]

/-- A successful pattern match consumes at least one character: the rest
of the text is strictly shorter. -/
theorem matchDoss_some_length (l ds r : List Char)
    (h : matchDoss l = some (ds, r)) : r.length < l.length := by
  unfold matchDoss at h
  by_cases hp : dossLit.isPrefixOf l
  · rw [if_pos hp] at h
    have hlen : 6 ≤ l.length := by
      have := (List.isPrefixOf_iff_prefix.mp hp).length_le
      simpa [dossLit] using this
    have hs := takeDigits_append (l.drop 6)
    rcases htd : takeDigits (l.drop 6) with ⟨ds2, r2⟩
    rw [htd] at h hs
    cases ds2 with
    | nil => simp at h
    | cons d0 ds2 =>
      cases r2 with
      | nil => simp at h
      | cons c r3 =>
        by_cases hq : c = quoteChar
        · simp only [hq, if_pos] at h
          obtain ⟨h1, h2⟩ : d0 :: ds2 = ds ∧ r3 = r := by simpa using h
          subst h2
          have hs2 : (d0 :: ds2) ++ (c :: r3) = l.drop 6 := hs
          have hlen2 := congrArg List.length hs2
          simp only [List.length_append, List.length_cons,
            List.length_drop] at hlen2
          omega
        · simp only [if_neg hq] at h
          exact absurd h (by simp)
  · rw [if_neg hp] at h; exact absurd h (by simp)

/-- Two sufficient fuel values make the scan agree. -/
theorem scanDossAux_congr (n : Nat) :
    ∀ (m : Nat) (l : List Char), l.length ≤ n → l.length ≤ m →
      scanDossAux n l = scanDossAux m l := by
  induction n with
  | zero =>
    intro m l hn _
    have : l = [] := List.length_eq_zero.mp (Nat.le_zero.mp hn)
    subst this
    cases m <;> rfl
  | succ n ih =>
    intro m l hn hm
    cases l with
    | nil => cases m <;> rfl
    | cons c rest =>
      cases m with
      | zero => simp at hm
      | succ m =>
        simp only [scanDossAux]
        cases hmd : matchDoss (c :: rest) with
        | none =>
          show scanDossAux n rest = scanDossAux m rest
          have hr : rest.length ≤ n := by simp at hn; omega
          have hr2 : rest.length ≤ m := by simp at hm; omega
          exact ih m rest hr hr2
        | some p =>
          rcases p with ⟨ds, r⟩
          show String.mk ds :: scanDossAux n r =
            String.mk ds :: scanDossAux m r
          have hlt := matchDoss_some_length (c :: rest) ds r hmd
          simp only [List.length_cons] at hlt hn hm
          rw [ih m r (by omega) (by omega)]

/-- Scan step on a position where the pattern does not match. -/
theorem scanDoss_cons_none (c : Char) (rest : List Char)
    (h : matchDoss (c :: rest) = none) :
    scanDoss (c :: rest) = scanDoss rest := by
  show scanDossAux (rest.length + 1) (c :: rest) = _
  simp only [scanDossAux, h]
  rfl

/-- Scan step on a position where the pattern matches: emit the captured
group and resume after the match. -/
theorem scanDoss_cons_some (c : Char) (rest ds r : List Char)
    (h : matchDoss (c :: rest) = some (ds, r)) :
    scanDoss (c :: rest) = String.mk ds :: scanDoss r := by
  show scanDossAux (rest.length + 1) (c :: rest) = _
  simp only [scanDossAux, h]
  have hlt := matchDoss_some_length (c :: rest) ds r h
  simp only [List.length_cons] at hlt
  rw [scanDossAux_congr rest.length r.length r (by omega) (le_refl _)]
  rfl

/-- A separator without the letter d contributes no match. -/
theorem scanDoss_append_no_d (sep rest : List Char)
    (h : ∀ c ∈ sep, c ≠ 'd') :
    scanDoss (sep ++ rest) = scanDoss rest := by
  induction sep with
  | nil => rfl
  | cons c sep ih =>
    rw [List.cons_append,
      scanDoss_cons_none c _ (matchDoss_not_d c _ (h c (by simp))),
      ih (fun x hx => h x (by simp [hx]))]

/-- A text without the letter d yields no match at all. -/
theorem scanDoss_no_d (l : List Char) (h : ∀ c ∈ l, c ≠ 'd') :
    scanDoss l = [] := by
  induction l with
  | nil => rfl
  | cons c rest ih =>
    rw [scanDoss_cons_none c _ (matchDoss_not_d c _ (h c (by simp))),
      ih (fun x hx => h x (by simp [hx]))]

/-- The maximal digit run of a digit group followed by a non-digit is the
group itself. -/
theorem takeDigits_digits_append (d : List Char) (x : Char) (r : List Char)
    (hd : ∀ c ∈ d, c.isDigit = true) (hx : x.isDigit = false) :
    takeDigits (d ++ x :: r) = (d, x :: r) := by
  induction d with
  | nil => simp [takeDigits, hx]
  | cons c d ih =>
    have hc := hd c (by simp)
    simp [takeDigits, hc, ih (fun y hy => hd y (by simp [hy]))]

/-- The pattern matches exactly at a quoted digit group, capturing the
group and resuming after its closing quote. -/
theorem matchDoss_at_lit (d rest : List Char) (hne : d ≠ [])
    (hd : ∀ c ∈ d, c.isDigit = true) :
    matchDoss (dossLit ++ (d ++ (quoteChar :: rest))) = some (d, rest) := by
  have hpre : dossLit.isPrefixOf (dossLit ++ (d ++ (quoteChar :: rest))) := by
    rw [List.isPrefixOf_iff_prefix]
    exact List.prefix_append _ _
  unfold matchDoss
  rw [if_pos hpre,
    show (dossLit ++ (d ++ (quoteChar :: rest))).drop 6 =
      d ++ (quoteChar :: rest) from List.drop_left dossLit _,
    takeDigits_digits_append d quoteChar rest hd (by decide)]
  cases d with
  | nil => exact absurd rfl hne
  | cons c d => simp

/-- On a well-formed ranking page — digit-free separators around quoted
digit groups — the scan returns exactly the digit groups, in document
order, duplicates preserved. -/
theorem scanDoss_buildDossDoc (frags : List (List Char × List Char))
    (tail : List Char)
    (hf : ∀ p ∈ frags, (∀ c ∈ p.1, c ≠ 'd') ∧ p.2 ≠ [] ∧
      ∀ c ∈ p.2, c.isDigit = true)
    (ht : ∀ c ∈ tail, c ≠ 'd') :
    scanDoss (buildDossDoc frags tail) =
      frags.map (fun p => String.mk p.2) := by
  induction frags with
  | nil => simpa [buildDossDoc] using scanDoss_no_d tail ht
  | cons p rest ih =>
    rcases p with ⟨sep, d⟩
    obtain ⟨hsep, hne, hdig⟩ := hf (sep, d) (by simp)
    show scanDoss (sep ++ (dossLit ++ (d ++ (quoteChar ::
      buildDossDoc rest tail)))) = _
    rw [scanDoss_append_no_d sep _ hsep]
    have hm := matchDoss_at_lit d (buildDossDoc rest tail) hne hdig
    rw [show dossLit ++ (d ++ (quoteChar :: buildDossDoc rest tail)) =
      'd' :: (['o', 's', 's', '=', quoteChar] ++
        (d ++ (quoteChar :: buildDossDoc rest tail))) from rfl] at hm ⊢
    rw [scanDoss_cons_some _ _ _ _ hm,
      ih (fun q hq => hf q (by simp [hq]))]
    rfl

/-- Claim C5: on a non-success HTTP status, `extract_bib_numbers` returns
the empty sequence and signals the failure only through the printed
recoverable message; on a success status it returns every bib identifier
matched in the document — for any page built from digit-free separators
around quoted digit groups, exactly those groups, in document order,
duplicates preserved. -/
theorem extract_bib_numbers_contract :
    (∀ resp : HttpResponse, resp.status_code ≠ 200 →
      extract_bib_numbers resp = ([], ["Failed to retrieve the page"])) ∧
    (∀ (frags : List (List Char × List Char)) (tail : List Char),
      (∀ p ∈ frags, (∀ c ∈ p.1, c ≠ 'd') ∧ p.2 ≠ [] ∧
        ∀ c ∈ p.2, c.isDigit = true) →
      (∀ c ∈ tail, c ≠ 'd') →
      extract_bib_numbers ⟨200, buildDossDoc frags tail⟩ =
        (frags.map (fun p => String.mk p.2), [])) := by
  constructor
  · intro resp h
    simp [extract_bib_numbers, h]
  · intro frags tail hf ht
    simp [extract_bib_numbers, scanDoss_buildDossDoc frags tail hf ht]

/-- Witness for C5 at concrete inputs: a failed fetch, and a success page
with two bibs (the second a duplicate pattern) separated by digit-free
text. -/
theorem extract_bib_numbers_contract_witness :
    extract_bib_numbers ⟨404, []⟩ =
      ([], ["Failed to retrieve the page"]) ∧
    extract_bib_numbers
      ⟨200, buildDossDoc [([' ', 'x'], ['1', '2']), ([' '], ['1', '2'])]
        [' ', 'z']⟩ =
      ([String.mk ['1', '2'], String.mk ['1', '2']], []) :=
  ⟨extract_bib_numbers_contract.1 ⟨404, []⟩ (by decide),
   extract_bib_numbers_contract.2
     [([' ', 'x'], ['1', '2']), ([' '], ['1', '2'])] [' ', 'z']
     (by decide) (by decide)⟩
